import Mathlib

/-!
Verification of the brush-model renderer (`src/client/render/brush.rs`) and the
in-game focus state machine (`src/bin/quake-client/game.rs`) of the richter
Quake engine.  Floating-point (`f32`) arithmetic is embedded as exact rational
arithmetic (`ℚ`); GPU-side resources (textures, pipeline objects) are embedded
as plain records carrying the data the code computes for them.  A Rust panic
(out-of-bounds index or slice) is embedded as `Except.error BuildErr.panic`,
while an error returned through the `?` operator is `BuildErr.gpuError`.
-/

namespace Richter

/-- A 3-component vector, modelling `cgmath::Vector3<f32>` with exact rationals. -/
structure Vec3 where
  x : ℚ
  y : ℚ
  z : ℚ
deriving DecidableEq

/-- Dot product, modelling `cgmath::InnerSpace::dot`. -/
def Vec3.dot (a b : Vec3) : ℚ :=
  a.x * b.x + a.y * b.y + a.z * b.z

/-- Modelled from the spec: `common::bsp` is not under `src/`.  An edge stores a
pair of vertex ids; faces reference edges "with a direction bit indicating
traversal order" (spec §4.1, §6).  `vertex_ids[direction as usize]` picks the
first id for direction `false` and the second for `true`. -/
structure BspEdge where
  v0 : Nat
  v1 : Nat
deriving DecidableEq

/-- The vertex id selected by a traversal direction: `vertex_ids[direction as usize]`. -/
def BspEdge.vertexAt (e : BspEdge) (direction : Bool) : Nat :=
  if direction then e.v1 else e.v0

/-- Modelled from the spec: an entry of the edge list referenced by a face,
"vertex-id pair + implicit direction via index sign/flag" (spec §6): an index
into the shared edge table plus the traversal direction flag. -/
structure BspEdgeIndex where
  index : Nat
  direction : Bool
deriving DecidableEq

/-- Modelled from the spec: texture-info records hold "s/t projection vectors
and offsets, associated texture id, special flag" (spec §6). -/
structure BspTexInfo where
  s_vector : Vec3
  t_vector : Vec3
  s_offset : ℚ
  t_offset : ℚ
  tex_id : Nat
  special : Bool
deriving DecidableEq

/-- Modelled from the spec: a face record holds "edge range, texture-info id,
light-style ids, optional lightmap sample offset, extents, texture mins"
(spec §6).  Extents are the non-negative face sizes used with truncating
integer division by 16; texture mins are signed. -/
structure BspFace where
  edge_id : Nat
  edge_count : Nat
  texinfo_id : Nat
  light_styles : Fin 4 → Nat
  lightmap_id : Option Nat
  texture_mins : Int × Int
  extents : Nat × Nat

/-- Modelled from the spec: texture records carry "dimensions, per-frame mipmap
byte planes" (spec §6); only the dimensions are consumed by the code under
verification. -/
structure BspTexture where
  width : Nat
  height : Nat
deriving DecidableEq

/-- Modelled from the spec: the parsed, read-only level data consumed by the
renderer (spec §6): vertex positions, shared edges, the face edge list, faces,
texinfo records, textures and the packed lightmap sample buffer (bytes). -/
structure BspData where
  vertices : List Vec3
  edges : List BspEdge
  edgelist : List BspEdgeIndex
  faces : List BspFace
  texinfo : List BspTexInfo
  textures : List BspTexture
  lightmaps : List Nat

/-- `BuildErr.panic` embeds a Rust panic (out-of-bounds index or slice); it is a
crash, not a value returned through `Result`.  `BuildErr.gpuError` embeds an
`Err` propagated by the `?` operator from the external GPU factory; the factory
is external to the code under verification and is modelled as always
succeeding, so `gpuError` is never produced by the embedded functions. -/
inductive BuildErr where
  | panic
  | gpuError
deriving DecidableEq

/-- Rust slice `&l[start..start + len]`: defined when the range lies inside the
list, a panic (`none`) otherwise. -/
def extractRange {α : Type} (l : List α) (start len : Nat) : Option (List α) :=
  if start + len ≤ l.length then some ((l.drop start).take len) else none

/-- The vertex format of the brush pipeline (`gfx_defines! vertex BrushVertex`). -/
structure BrushVertex where
  position : Vec3
  diffuse_texcoord : ℚ × ℚ
  lightmap_texcoord : ℚ × ℚ
deriving DecidableEq

/-- The `gfx::Slice` fields the code fills in: `start`, `end` (named `stop`
here because `end` is a Lean keyword) and `base_vertex`. -/
structure Slice where
  start : Nat
  stop : Nat
  base_vertex : Nat
deriving DecidableEq

/-- Per-face render record (`BrushRenderFace`). -/
structure BrushRenderFace where
  slice : Slice
  tex_id : Nat
  lightmap_id : Option Nat
  light_styles : Fin 4 → Nat

/-- The GPU image built for one face's lightmap: the dimensions passed to
`texture::Kind::D2` and the sample bytes uploaded. -/
structure LightmapImage where
  width : Nat
  height : Nat
  data : List Nat
deriving DecidableEq

/-- `calculate_lightmap_texcoords` from `brush.rs`. -/
def calculate_lightmap_texcoords (position : Vec3) (face : BspFace)
    (texinfo : BspTexInfo) : ℚ × ℚ :=
  let s := texinfo.s_vector.dot position + texinfo.s_offset
  let s := s - (face.texture_mins.1 : ℚ)
  let s := s / (face.extents.1 : ℚ)
  let t := texinfo.t_vector.dot position + texinfo.t_offset
  let t := t - (face.texture_mins.2 : ℚ)
  let t := t / (face.extents.2 : ℚ)
  (s, t)

/-- The diffuse texture coordinates computed in `create_brush_render_face`:
`(position.dot(s_vector) + s_offset) / tex.width()` and the analogue for `t`. -/
def diffuse_texcoords (position : Vec3) (texinfo : BspTexInfo)
    (tex : BspTexture) : ℚ × ℚ :=
  ((position.dot texinfo.s_vector + texinfo.s_offset) / (tex.width : ℚ),
   (position.dot texinfo.t_vector + texinfo.t_offset) / (tex.height : ℚ))

/-- One `BrushVertex` pushed by the triangulation loop: position plus the two
texture-coordinate sets. -/
def fanVertex (face : BspFace) (texinfo : BspTexInfo) (tex : BspTexture)
    (position : Vec3) : BrushVertex :=
  { position := position
    diffuse_texcoord := diffuse_texcoords position texinfo tex
    lightmap_texcoord := calculate_lightmap_texcoords position face texinfo }

/-- One iteration of the triangle-fan loop at loop index `i`: push the base
vertex, then the `i`th and `(i+1)`th loop vertices.  `none` embeds a panic from
an out-of-bounds index. -/
def fanTriangle (bsp : BspData) (face : BspFace) (texinfo : BspTexInfo)
    (tex : BspTexture) (face_edge_ids : List BspEdgeIndex) (base_position : Vec3)
    (i : Nat) : Option (List BrushVertex) :=
  (face_edge_ids.get? i).bind fun e1 =>
    (bsp.edges.get? e1.index).bind fun edge1 =>
      (bsp.vertices.get? (edge1.vertexAt e1.direction)).bind fun p1 =>
        (face_edge_ids.get? (i + 1)).bind fun e2 =>
          (bsp.edges.get? e2.index).bind fun edge2 =>
            (bsp.vertices.get? (edge2.vertexAt e2.direction)).bind fun p2 =>
              some [fanVertex face texinfo tex base_position,
                    fanVertex face texinfo tex p1,
                    fanVertex face texinfo tex p2]

/-- The triangle-fan loop `for i in 1..face_edge_ids.len() - 1`, unrolled as a
recursion on the remaining iteration count, starting at `i`. -/
def fanLoop (bsp : BspData) (face : BspFace) (texinfo : BspTexInfo)
    (tex : BspTexture) (face_edge_ids : List BspEdgeIndex) (base_position : Vec3) :
    Nat → Nat → Option (List BrushVertex)
  | _, 0 => some []
  | i, Nat.succ n =>
    match fanTriangle bsp face texinfo tex face_edge_ids base_position i with
    | none => none
    | some tri =>
      match fanLoop bsp face texinfo tex face_edge_ids base_position (i + 1) n with
      | none => none
      | some rest => some (tri ++ rest)

/-- The lightmap branch of `create_brush_render_face`: for a non-special
texinfo with a stored sample offset, slice the packed lightmap buffer at
`ofs..ofs + lightmap_size` (a panic — `none` — when out of range) and append
the built image; otherwise no lightmap image.  The GPU call
`factory.create_texture_immutable_u8` is external and modelled as succeeding. -/
def lightmapStep (bsp : BspData) (face : BspFace) (texinfo : BspTexInfo)
    (lightmap_w lightmap_h lightmap_size : Nat)
    (lightmap_views : List LightmapImage) :
    Option (Option Nat × List LightmapImage) :=
  if texinfo.special = false then
    match face.lightmap_id with
    | some ofs =>
      (extractRange bsp.lightmaps ofs lightmap_size).bind fun lightmap_data =>
        some (some lightmap_views.length,
              lightmap_views ++ [{ width := lightmap_w, height := lightmap_h,
                                   data := lightmap_data }])
    | none => some (none, lightmap_views)
  else some (none, lightmap_views)

/-- `create_brush_render_face` with all failure paths collapsed to `none`:
every fallible step in the function body is an indexing or slicing operation,
each of which panics in Rust when out of range (the GPU factory calls, the
only sources of a returned `Err`, are external and modelled as succeeding). -/
def create_brush_render_face_core (bsp : BspData) (face_id : Nat)
    (vertices : List BrushVertex) (lightmap_views : List LightmapImage) :
    Option (BrushRenderFace × List BrushVertex × List LightmapImage) :=
  (bsp.faces.get? face_id).bind fun face =>
  (bsp.texinfo.get? face.texinfo_id).bind fun texinfo =>
  (bsp.textures.get? texinfo.tex_id).bind fun tex =>
  (extractRange bsp.edgelist face.edge_id face.edge_count).bind fun face_edge_ids =>
  (face_edge_ids.get? 0).bind fun e0 =>
  (bsp.edges.get? e0.index).bind fun edge0 =>
  (bsp.vertices.get? (edge0.vertexAt e0.direction)).bind fun base_position =>
  (fanLoop bsp face texinfo tex face_edge_ids base_position 1
      (face_edge_ids.length - 2)).bind fun fan =>
  let face_vert_id := vertices.length
  let vertices2 := vertices ++ fan
  let lightmap_w := face.extents.1 / 16 + 1
  let lightmap_h := face.extents.2 / 16 + 1
  let lightmap_size := lightmap_w * lightmap_h
  (lightmapStep bsp face texinfo lightmap_w lightmap_h lightmap_size
      lightmap_views).bind fun lmout =>
  let face_vert_count := vertices2.length - face_vert_id
  some ({ slice := { start := 0, stop := face_vert_count, base_vertex := face_vert_id }
          tex_id := texinfo.tex_id
          lightmap_id := lmout.1
          light_styles := face.light_styles },
        vertices2, lmout.2)

/-- `create_brush_render_face` from `brush.rs`, as a `Result`: a `none` from
the core is a Rust panic, surfaced as `BuildErr.panic` (a crash, distinct from
an `Err` returned through `?`, which would be `BuildErr.gpuError`). -/
def create_brush_render_face (bsp : BspData) (face_id : Nat)
    (vertices : List BrushVertex) (lightmap_views : List LightmapImage) :
    Except BuildErr (BrushRenderFace × List BrushVertex × List LightmapImage) :=
  match create_brush_render_face_core bsp face_id vertices lightmap_views with
  | some out => .ok out
  | none => .error .panic

/-- The state the `BrushRenderer` holds that the verified code reads back at
render time: the face table, the shared vertex buffer, the per-face lightmap
images, and the number of texture (and fullbright) views, one pair per BSP
texture. -/
structure BrushRenderer where
  faces : List BrushRenderFace
  vertices : List BrushVertex
  lightmap_views : List LightmapImage
  texture_count : Nat

/-- The face loop of `BrushRenderer::new`: `for face_id in
bsp_model.face_id..bsp_model.face_id + bsp_model.face_count`, accumulating the
face table, vertex buffer and lightmap views, propagating the first failure. -/
def buildFaces (bsp : BspData) :
    Nat → Nat → List BrushRenderFace → List BrushVertex → List LightmapImage →
    Except BuildErr (List BrushRenderFace × List BrushVertex × List LightmapImage)
  | _, 0, faces, verts, lms => .ok (faces, verts, lms)
  | face_id, Nat.succ n, faces, verts, lms =>
    match create_brush_render_face bsp face_id verts lms with
    | .error e => .error e
    | .ok (f, verts2, lms2) =>
      buildFaces bsp (face_id + 1) n (faces ++ [f]) verts2 lms2

/-- `BrushRenderer::new` from `brush.rs`.  The pipeline-state creation, the
per-texture color/fullbright image building via the palette, the dummy 1×1
images and the samplers are external GPU/palette work modelled as succeeding;
the data relevant to the claims is the face table, the vertex buffer, the
lightmap views and the count of texture views (one per BSP texture). -/
def BrushRenderer.new (bsp : BspData) (model_face_id model_face_count : Nat) :
    Except BuildErr BrushRenderer :=
  match buildFaces bsp model_face_id model_face_count [] [] [] with
  | .error e => .error e
  | .ok (faces, verts, lms) =>
    .ok { faces := faces, vertices := verts, lightmap_views := lms,
          texture_count := bsp.textures.length }

/-- A 4×4 matrix of rationals, modelling `cgmath::Matrix4<f32>`. -/
abbrev Mat4 : Type := Matrix (Fin 4) (Fin 4) ℚ

/-- `cgmath::Matrix4::from_translation v`: the identity with the translation
vector in the fourth column. -/
def fromTranslation (v : Vec3) : Mat4 :=
  Matrix.of fun i j =>
    if i = j then 1 else if (j : Nat) = 3 then ![v.x, v.y, v.z, 0] i else 0

/-- One draw submission (`encoder.draw`): the vertex slice, the bound
`u_Transform`, the texture-view index bound for the resolved animation frame
(diffuse and fullbright), the bound lightmap view (`none` = the dummy
lightmap), and the `u_LightstyleValue` uniform. -/
structure DrawCmd where
  slice : Slice
  transform : Mat4
  frame : Nat
  lightmap : Option Nat
  lightstyle_value : Fin 4 → ℚ

/-- The per-face light-style uniform computed in `BrushRenderer::render`:
start from `[-1.0; 4]` and overwrite lane `i` with
`lightstyle_values[face.light_styles[i]]` whenever that lookup (`slice::get`)
is in range. -/
def computeLightstyleValue (light_styles : Fin 4 → Nat)
    (lightstyle_values : List ℚ) : Fin 4 → ℚ :=
  fun i =>
    match lightstyle_values.get? (light_styles i) with
    | some l => l
    | none => -1

/-- The body of the per-face render loop: resolve the animation frame
(`texture_frame_for_time` is external to `src/`, supplied as `frameForTime`),
build the model and final transforms, bind the frame's texture views (an
out-of-range frame index panics), bind the face's lightmap view or the dummy,
and compute the light-style uniform. -/
def renderFace (r : BrushRenderer) (frameForTime : Nat → Int → Nat) (time : Int)
    (cameraTransform : Mat4) (eulerFrom : Vec3 → Mat4) (origin angles : Vec3)
    (lightstyle_values : List ℚ) (face : BrushRenderFace) :
    Except BuildErr DrawCmd :=
  let frame := frameForTime face.tex_id time
  let model_transform :=
    fromTranslation { x := -origin.y, y := origin.z, z := -origin.x } *
      eulerFrom angles
  if frame < r.texture_count then
    match face.lightmap_id with
    | some l_id =>
      if l_id < r.lightmap_views.length then
        .ok { slice := face.slice
              transform := cameraTransform * model_transform
              frame := frame
              lightmap := some l_id
              lightstyle_value :=
                computeLightstyleValue face.light_styles lightstyle_values }
      else .error .panic
    | none =>
      .ok { slice := face.slice
            transform := cameraTransform * model_transform
            frame := frame
            lightmap := none
            lightstyle_value :=
              computeLightstyleValue face.light_styles lightstyle_values }
  else .error .panic

/-- The render loop `for face in self.faces.iter()`, collecting the draw
submissions in order. -/
def renderLoop (r : BrushRenderer) (frameForTime : Nat → Int → Nat) (time : Int)
    (cameraTransform : Mat4) (eulerFrom : Vec3 → Mat4) (origin angles : Vec3)
    (lightstyle_values : List ℚ) :
    List BrushRenderFace → Except BuildErr (List DrawCmd)
  | [] => .ok []
  | f :: rest =>
    match renderFace r frameForTime time cameraTransform eulerFrom origin angles
        lightstyle_values f with
    | .error e => .error e
    | .ok d =>
      match renderLoop r frameForTime time cameraTransform eulerFrom origin
          angles lightstyle_values rest with
      | .error e => .error e
      | .ok ds => .ok (d :: ds)

/-- `BrushRenderer::render` from `brush.rs`: one draw submission per face-table
entry.  `create_pipeline_data` only clones handles and always succeeds. -/
def BrushRenderer.render (r : BrushRenderer) (frameForTime : Nat → Int → Nat)
    (time : Int) (cameraTransform : Mat4) (eulerFrom : Vec3 → Mat4)
    (origin angles : Vec3) (lightstyle_values : List ℚ) :
    Except BuildErr (List DrawCmd) :=
  renderLoop r frameForTime time cameraTransform eulerFrom origin angles
    lightstyle_values r.faces

/-- Whether an embedded computation completed without failure. -/
def exceptOk {ε α : Type} : Except ε α → Bool
  | .ok _ => true
  | .error _ => false

/-- A 4-component color, modelling GLSL `vec4`. -/
structure Vec4 where
  r : ℚ
  g : ℚ
  b : ℚ
  a : ℚ
deriving DecidableEq

/-- GLSL `mix(x, y, t) = x*(1-t) + y*t`. -/
def glslMix (x y t : ℚ) : ℚ := x * (1 - t) + y * t

/-- The light-style loop of `BRUSH_FRAGMENT_SHADER_GLSL`, on the list of the
four `u_LightstyleValue` lanes: accumulate `light_factor` and set
`lightstyle_count = i + 1` while the lane differs from `-1`; `break` at the
first `-1` lane.  Returns the accumulated sum and the final count. -/
def styleLoop : List ℚ → ℚ × Nat
  | [] => (0, 0)
  | v :: rest =>
    if v = -1 then (0, 0)
    else (v + (styleLoop rest).1, (styleLoop rest).2 + 1)

/-- The per-fragment light factor of `BRUSH_FRAGMENT_SHADER_GLSL`: divide the
accumulated sum by `lightstyle_count` when it is nonzero, else `1.0`. -/
def lightFactor (v : Fin 4 → ℚ) : ℚ :=
  let sc := styleLoop [v 0, v 1, v 2, v 3]
  if sc.2 ≠ 0 then sc.1 / (sc.2 : ℚ) else 1

/-- The fragment computation of `BRUSH_FRAGMENT_SHADER_GLSL` for one texel:
`base_color` is the diffuse texture sample, `lightmap_r` the `r` channel of
the lightmap sample, `v` the `u_LightstyleValue` uniform and `fullbright_r`
the `r` channel of the fullbright-mask sample.  `lightmapped_color =
vec4(base_color.rgb * lightmap.rrr, 1.0)` and `Target0 =
mix(lightmapped_color * light_factor, base_color, fullbright_factor)`. -/
def fragmentShader (base_color : Vec4) (lightmap_r : ℚ) (v : Fin 4 → ℚ)
    (fullbright_r : ℚ) : Vec4 :=
  let lightmapped_color : Vec4 :=
    { r := base_color.r * lightmap_r
      g := base_color.g * lightmap_r
      b := base_color.b * lightmap_r
      a := 1 }
  let light_factor := lightFactor v
  { r := glslMix (lightmapped_color.r * light_factor) base_color.r fullbright_r
    g := glslMix (lightmapped_color.g * light_factor) base_color.g fullbright_r
    b := glslMix (lightmapped_color.b * light_factor) base_color.b fullbright_r
    a := glslMix (lightmapped_color.a * light_factor) base_color.a fullbright_r }

/-- The in-game focus states of `game.rs` (`InGameFocus`). -/
inductive InGameFocus where
  | game
  | menu
  | console
deriving DecidableEq

/-- The `toggleconsole` command handler registered in `InGameState::new`:
`Game → Console`, `Console → Game`, and no state change from `Menu`. -/
def toggleconsole : InGameFocus → InGameFocus
  | .game => .console
  | .console => .game
  | .menu => .menu

/-- The `togglemenu` command handler registered in `InGameState::new`:
`Game → Menu`, and `Menu | Console → Game`. -/
def togglemenu : InGameFocus → InGameFocus
  | .game => .menu
  | .menu => .game
  | .console => .game

/-- Claim-side definition, following the spec's words for light-style
blending: "average of all active lane values if at least one lane is active,
else a neutral multiplier of 1.0", where a lane is active when it is not the
`-1` sentinel — over every arrangement of active and inactive lanes. -/
def specLightFactorAll (v : Fin 4 → ℚ) : ℚ :=
  let active := [v 0, v 1, v 2, v 3].filter fun x => decide (x ≠ -1)
  if active.length ≠ 0 then active.sum / (active.length : ℚ) else 1

/-- Amended claim-side definition: the average is taken over the leading run
of active lanes (the lanes before the first `-1` sentinel), and the factor is
`1.0` when the first lane is already inactive. -/
def specLightFactorLead (v : Fin 4 → ℚ) : ℚ :=
  let lead := [v 0, v 1, v 2, v 3].takeWhile fun x => decide (x ≠ -1)
  if lead.length ≠ 0 then lead.sum / (lead.length : ℚ) else 1

/-- Claim-side definition, following the spec's words for the lightmap
texture coordinates: `((dot(position, s_vector) + s_offset) - texture_mins.x)
/ extents.x`, and the analogous expression for `t`. -/
def specLightmapUV (position : Vec3) (face : BspFace) (texinfo : BspTexInfo) :
    ℚ × ℚ :=
  ((position.dot texinfo.s_vector + texinfo.s_offset - (face.texture_mins.1 : ℚ)) /
     (face.extents.1 : ℚ),
   (position.dot texinfo.t_vector + texinfo.t_offset - (face.texture_mins.2 : ℚ)) /
     (face.extents.2 : ℚ))

/-- A concrete texinfo: trivial projection vectors, texture 0, not special. -/
def ti0 : BspTexInfo :=
  { s_vector := { x := 0, y := 0, z := 0 }, t_vector := { x := 0, y := 0, z := 0 }
    s_offset := 0, t_offset := 0, tex_id := 0, special := false }

/-- A concrete 16×16 texture record. -/
def tex0 : BspTexture := { width := 16, height := 16 }

/-- A 4-edge (quad) face over a degenerate closed edge loop; all four loop
vertices are vertex 0. -/
def quadFace : BspFace :=
  { edge_id := 0, edge_count := 4, texinfo_id := 0, light_styles := fun _ => 255
    lightmap_id := none, texture_mins := (0, 0), extents := (0, 0) }

/-- The position shared by all loop vertices of the concrete faces below. -/
def pos0 : Vec3 := { x := 0, y := 0, z := 0 }

/-- Level data holding only `quadFace`. -/
def bspQuad : BspData :=
  { vertices := [pos0], edges := [{ v0 := 0, v1 := 0 }]
    edgelist := [{ index := 0, direction := false }, { index := 0, direction := false },
                 { index := 0, direction := false }, { index := 0, direction := false }]
    faces := [quadFace], texinfo := [ti0], textures := [tex0], lightmaps := [] }

/-- The vertex the triangulation of `bspQuad` emits six times. -/
def quadVert : BrushVertex := fanVertex quadFace ti0 tex0 pos0

/-- The face record the triangulation of `bspQuad` produces. -/
def quadFaceOut : BrushRenderFace :=
  { slice := { start := 0, stop := 6, base_vertex := 0 }, tex_id := 0
    lightmap_id := none, light_styles := quadFace.light_styles }

/-- A face with zero edges. -/
def zeroFace : BspFace :=
  { edge_id := 0, edge_count := 0, texinfo_id := 0, light_styles := fun _ => 255
    lightmap_id := none, texture_mins := (0, 0), extents := (0, 0) }

/-- Level data holding only the zero-edge face. -/
def bspZero : BspData :=
  { vertices := [], edges := [], edgelist := [], faces := [zeroFace]
    texinfo := [ti0], textures := [tex0], lightmaps := [] }

/-- A degenerate 2-edge face. -/
def degFace : BspFace :=
  { edge_id := 0, edge_count := 2, texinfo_id := 0, light_styles := fun _ => 255
    lightmap_id := none, texture_mins := (0, 0), extents := (0, 0) }

/-- Level data holding only the degenerate 2-edge face. -/
def bspDeg : BspData :=
  { vertices := [{ x := 0, y := 0, z := 0 }], edges := [{ v0 := 0, v1 := 0 }]
    edgelist := [{ index := 0, direction := false }, { index := 0, direction := false }]
    faces := [degFace], texinfo := [ti0], textures := [tex0], lightmaps := [] }

/-- Build the renderer for `bspDeg` and run one render pass over its single
(degenerate) face. -/
def degRenderResult : Except BuildErr (List DrawCmd) :=
  match BrushRenderer.new bspDeg 0 1 with
  | .error e => .error e
  | .ok r =>
    r.render (fun _ _ => 0) 0 1 (fun _ => 1) { x := 0, y := 0, z := 0 }
      { x := 0, y := 0, z := 0 } []

/-- The number of draw submissions of an embedded render pass. -/
def drawCount : Except BuildErr (List DrawCmd) → Nat
  | .ok ds => ds.length
  | .error _ => 0

/-- A lit 1-edge face whose lightmap offset points past the end of the sample
buffer (extents `(0, 0)`, so the lightmap would be 1×1 = 1 byte). -/
def truncFace : BspFace :=
  { edge_id := 0, edge_count := 1, texinfo_id := 0, light_styles := fun _ => 255
    lightmap_id := some 0, texture_mins := (0, 0), extents := (0, 0) }

/-- Level data with an empty lightmap sample buffer for `truncFace`. -/
def bspTrunc : BspData :=
  { vertices := [{ x := 0, y := 0, z := 0 }], edges := [{ v0 := 0, v1 := 0 }]
    edgelist := [{ index := 0, direction := false }], faces := [truncFace]
    texinfo := [ti0], textures := [tex0], lightmaps := [] }

/-- A lit 1-edge face with extents `(16, 0)` (2×1 lightmap, 2 bytes). -/
def truncFace2 : BspFace :=
  { edge_id := 0, edge_count := 1, texinfo_id := 0, light_styles := fun _ => 255
    lightmap_id := some 0, texture_mins := (0, 0), extents := (16, 0) }

/-- Level data whose sample buffer holds 1 byte where `truncFace2` needs 2. -/
def bspTrunc2 : BspData :=
  { vertices := [{ x := 0, y := 0, z := 0 }], edges := [{ v0 := 0, v1 := 0 }]
    edgelist := [{ index := 0, direction := false }], faces := [truncFace2]
    texinfo := [ti0], textures := [tex0], lightmaps := [0] }

/-- A lit 1-edge face with extents `(32, 48)`: a 3×4 lightmap, 12 bytes. -/
def litFace : BspFace :=
  { edge_id := 0, edge_count := 1, texinfo_id := 0, light_styles := fun _ => 255
    lightmap_id := some 0, texture_mins := (0, 0), extents := (32, 48) }

/-- Level data with exactly the 12 lightmap sample bytes `litFace` needs. -/
def bspLit : BspData :=
  { vertices := [{ x := 0, y := 0, z := 0 }], edges := [{ v0 := 0, v1 := 0 }]
    edgelist := [{ index := 0, direction := false }], faces := [litFace]
    texinfo := [ti0], textures := [tex0], lightmaps := List.replicate 12 0 }

/-- The face record built for `litFace`. -/
def litFaceOut : BrushRenderFace :=
  { slice := { start := 0, stop := 0, base_vertex := 0 }, tex_id := 0
    lightmap_id := some 0, light_styles := litFace.light_styles }

/-- A face record whose four light-style slots all carry the conventional
"no style" id 255. -/
def styleFace : BrushRenderFace :=
  { slice := { start := 0, stop := 0, base_vertex := 0 }, tex_id := 0
    lightmap_id := none, light_styles := fun _ => 255 }

/-- A renderer holding only `styleFace`, with one texture view. -/
def styleRenderer : BrushRenderer :=
  { faces := [styleFace], vertices := [], lightmap_views := [], texture_count := 1 }

/-- A frame resolver that always selects frame 0. -/
def ff0 : Nat → Int → Nat := fun _ _ => 0

/-- An Euler-rotation supplier returning the identity matrix. -/
def ee0 : Vec3 → Mat4 := fun _ => 1

/-- The zero vector. -/
def v0 : Vec3 := { x := 0, y := 0, z := 0 }

/-- The draw submission `styleRenderer` produces. -/
def styleDraw : DrawCmd :=
  { slice := styleFace.slice
    transform := 1 * (fromTranslation { x := -v0.y, y := v0.z, z := -v0.x } * ee0 v0)
    frame := 0
    lightmap := none
    lightstyle_value := computeLightstyleValue styleFace.light_styles [] }

/-- The face record built for the degenerate 2-edge face `degFace`. -/
def degFaceOut : BrushRenderFace :=
  { slice := { start := 0, stop := 0, base_vertex := 0 }, tex_id := 0
    lightmap_id := none, light_styles := degFace.light_styles }

/-- A renderer holding only `degFaceOut`, with one texture view. -/
def degRenderer : BrushRenderer :=
  { faces := [degFaceOut], vertices := [], lightmap_views := [], texture_count := 1 }

/-- The draw submission `degRenderer` produces for the degenerate face. -/
def degDraw : DrawCmd :=
  { slice := degFaceOut.slice
    transform := 1 * (fromTranslation { x := -v0.y, y := v0.z, z := -v0.x } * ee0 v0)
    frame := 0
    lightmap := none
    lightstyle_value := computeLightstyleValue degFaceOut.light_styles [] }

theorem Vec3.dot_comm (a b : Vec3) : a.dot b = b.dot a := by
  simp only [Vec3.dot]; ring

theorem extractRange_length {α : Type} {l : List α} {start len : Nat} {r : List α}
    (h : extractRange l start len = some r) : r.length = len := by
  unfold extractRange at h
  split at h
  · cases h
    simp only [List.length_take, List.length_drop]
    omega
  · cases h

theorem fanTriangle_length {bsp face texinfo tex face_edge_ids base_position i tri}
    (h : fanTriangle bsp face texinfo tex face_edge_ids base_position i = some tri) :
    tri.length = 3 := by
  simp only [fanTriangle, Option.bind_eq_some, Option.some.injEq] at h
  obtain ⟨e1, -, edge1, -, p1, -, e2, -, edge2, -, p2, -, rfl⟩ := h
  rfl

theorem fanLoop_length {bsp face texinfo tex face_edge_ids base_position}
    {i n : Nat} {l : List BrushVertex}
    (h : fanLoop bsp face texinfo tex face_edge_ids base_position i n = some l) :
    l.length = 3 * n := by
  induction n generalizing i l with
  | zero => cases h; rfl
  | succ n ih =>
    unfold fanLoop at h
    split at h
    · cases h
    · rename_i tri htri
      split at h
      · cases h
      · rename_i rest hrest
        cases h
        rw [List.length_append, fanTriangle_length htri, ih hrest]
        ring

theorem create_core_inv {bsp : BspData} {face_id : Nat} {verts : List BrushVertex}
    {lms : List LightmapImage}
    {out : BrushRenderFace × List BrushVertex × List LightmapImage}
    (h : create_brush_render_face_core bsp face_id verts lms = some out) :
    ∃ face texinfo tex face_edge_ids base_position fan lmout,
      bsp.faces.get? face_id = some face
      ∧ bsp.texinfo.get? face.texinfo_id = some texinfo
      ∧ bsp.textures.get? texinfo.tex_id = some tex
      ∧ extractRange bsp.edgelist face.edge_id face.edge_count = some face_edge_ids
      ∧ fanLoop bsp face texinfo tex face_edge_ids base_position 1
          (face_edge_ids.length - 2) = some fan
      ∧ lightmapStep bsp face texinfo (face.extents.1 / 16 + 1)
          (face.extents.2 / 16 + 1)
          ((face.extents.1 / 16 + 1) * (face.extents.2 / 16 + 1)) lms = some lmout
      ∧ out = ({ slice := { start := 0, stop := fan.length, base_vertex := verts.length }
                 tex_id := texinfo.tex_id
                 lightmap_id := lmout.1
                 light_styles := face.light_styles },
               verts ++ fan, lmout.2) := by
  simp only [create_brush_render_face_core, Option.bind_eq_some,
    Option.some.injEq] at h
  obtain ⟨face, h1, texinfo, h2, tex, h3, fei, h4, e0, h5, edge0, h6, bp, h7,
    fan, h8, lmout, h9, h10⟩ := h
  refine ⟨face, texinfo, tex, fei, bp, fan, lmout, h1, h2, h3, h4, h8, h9, ?_⟩
  rw [← h10]
  simp [List.length_append]

theorem create_error_panic {bsp : BspData} {face_id : Nat}
    {verts : List BrushVertex} {lms : List LightmapImage} {e : BuildErr}
    (h : create_brush_render_face bsp face_id verts lms = .error e) :
    e = .panic := by
  unfold create_brush_render_face at h
  cases hcore : create_brush_render_face_core bsp face_id verts lms with
  | none => rw [hcore] at h; cases h; rfl
  | some out => rw [hcore] at h; cases h

theorem styleLoop_eq_takeWhile (l : List ℚ) :
    styleLoop l = ((l.takeWhile fun x => decide (x ≠ -1)).sum,
                   (l.takeWhile fun x => decide (x ≠ -1)).length) := by
  induction l with
  | nil => rfl
  | cons v rest ih =>
    by_cases hv : v = -1
    · simp [styleLoop, hv, List.takeWhile_cons]
    · simp [styleLoop, hv, List.takeWhile_cons, ih]

theorem renderFace_ok_inv {r : BrushRenderer} {ff : Nat → Int → Nat} {time : Int}
    {camT : Mat4} {ee : Vec3 → Mat4} {origin angles : Vec3} {vals : List ℚ}
    {f : BrushRenderFace} {d : DrawCmd}
    (h : renderFace r ff time camT ee origin angles vals f = .ok d) :
    ff f.tex_id time < r.texture_count
    ∧ (∀ l, f.lightmap_id = some l → l < r.lightmap_views.length)
    ∧ d = { slice := f.slice
            transform := camT *
              (fromTranslation { x := -origin.y, y := origin.z, z := -origin.x } *
                ee angles)
            frame := ff f.tex_id time
            lightmap := f.lightmap_id
            lightstyle_value := computeLightstyleValue f.light_styles vals } := by
  simp only [renderFace] at h
  cases hl : f.lightmap_id with
  | some l_id =>
    simp only [hl] at h
    split at h
    · rename_i hframe
      split at h
      · rename_i hlt
        cases h
        refine ⟨hframe, ?_, ?_⟩
        · intro l hfl; cases hfl; exact hlt
        · rfl
      · cases h
    · cases h
  | none =>
    simp only [hl] at h
    split at h
    · rename_i hframe
      cases h
      refine ⟨hframe, ?_, ?_⟩
      · intro l hfl; cases hfl
      · rfl
    · cases h

theorem renderFace_ok {r : BrushRenderer} {ff : Nat → Int → Nat} {time : Int}
    {camT : Mat4} {ee : Vec3 → Mat4} {origin angles : Vec3} {vals : List ℚ}
    {f : BrushRenderFace}
    (hframe : ff f.tex_id time < r.texture_count)
    (hlm : ∀ l, f.lightmap_id = some l → l < r.lightmap_views.length) :
    renderFace r ff time camT ee origin angles vals f =
      .ok { slice := f.slice
            transform := camT *
              (fromTranslation { x := -origin.y, y := origin.z, z := -origin.x } *
                ee angles)
            frame := ff f.tex_id time
            lightmap := f.lightmap_id
            lightstyle_value := computeLightstyleValue f.light_styles vals } := by
  cases hl : f.lightmap_id with
  | some l_id => simp [renderFace, hl, hframe, hlm l_id hl]
  | none => simp [renderFace, hl, hframe]

theorem renderLoop_ok_get {r : BrushRenderer} {ff : Nat → Int → Nat} {time : Int}
    {camT : Mat4} {ee : Vec3 → Mat4} {origin angles : Vec3} {vals : List ℚ}
    {fs : List BrushRenderFace} {ds : List DrawCmd}
    (h : renderLoop r ff time camT ee origin angles vals fs = .ok ds) :
    ds.length = fs.length
    ∧ ∀ i (h1 : i < fs.length) (h2 : i < ds.length),
        renderFace r ff time camT ee origin angles vals (fs.get ⟨i, h1⟩) =
          .ok (ds.get ⟨i, h2⟩) := by
  induction fs generalizing ds with
  | nil =>
    cases h
    exact ⟨rfl, fun i h1 _ => absurd h1 (Nat.not_lt_zero i)⟩
  | cons f rest ih =>
    unfold renderLoop at h
    split at h
    · cases h
    · rename_i d hd
      split at h
      · cases h
      · rename_i ds' hds'
        cases h
        obtain ⟨hlen, hget⟩ := ih hds'
        refine ⟨by simp [hlen], fun i h1 h2 => ?_⟩
        cases i with
        | zero => exact hd
        | succ i =>
          exact hget i (Nat.lt_of_succ_lt_succ h1) (Nat.lt_of_succ_lt_succ h2)

theorem renderLoop_mem {r : BrushRenderer} {ff : Nat → Int → Nat} {time : Int}
    {camT : Mat4} {ee : Vec3 → Mat4} {origin angles : Vec3} {vals : List ℚ}
    {fs : List BrushRenderFace} {ds : List DrawCmd}
    (h : renderLoop r ff time camT ee origin angles vals fs = .ok ds) :
    ∀ d ∈ ds, ∃ f ∈ fs,
      renderFace r ff time camT ee origin angles vals f = .ok d := by
  induction fs generalizing ds with
  | nil => cases h; intro d hd; cases hd
  | cons f rest ih =>
    unfold renderLoop at h
    split at h
    · cases h
    · rename_i d0 hd0
      split at h
      · cases h
      · rename_i ds' hds'
        cases h
        intro d hd
        cases hd with
        | head => exact ⟨f, List.mem_cons_self f rest, hd0⟩
        | tail _ hd =>
          obtain ⟨f', hf', hfd'⟩ := ih hds' d hd
          exact ⟨f', List.mem_cons_of_mem f hf', hfd'⟩

theorem renderLoop_ok_indep {r : BrushRenderer} {ff : Nat → Int → Nat} {time : Int}
    {camT : Mat4} {ee : Vec3 → Mat4} {origin angles : Vec3} {vals : List ℚ}
    {fs : List BrushRenderFace} {ds : List DrawCmd}
    (h : renderLoop r ff time camT ee origin angles vals fs = .ok ds)
    (vals' : List ℚ) :
    ∃ ds', renderLoop r ff time camT ee origin angles vals' fs = .ok ds' := by
  induction fs generalizing ds with
  | nil => exact ⟨[], rfl⟩
  | cons f rest ih =>
    unfold renderLoop at h
    split at h
    · cases h
    · rename_i d0 hd0
      split at h
      · cases h
      · rename_i ds' hds'
        obtain ⟨hframe, hlm, -⟩ := renderFace_ok_inv hd0
        obtain ⟨ds2, hds2⟩ := ih hds'
        cases hres : renderLoop r ff time camT ee origin angles vals' (f :: rest) with
        | ok ds3 => exact ⟨ds3, rfl⟩
        | error e =>
          simp only [renderLoop, renderFace_ok hframe hlm, hds2] at hres
          exact Except.noConfusion hres

theorem buildFaces_panics {bsp : BspData} {face_id : Nat}
    (hbad : ∀ verts lms,
      create_brush_render_face bsp face_id verts lms = .error .panic) :
    ∀ (count start : Nat) (faces : List BrushRenderFace)
      (verts : List BrushVertex) (lms : List LightmapImage),
      start ≤ face_id → face_id < start + count →
      buildFaces bsp start count faces verts lms = .error .panic := by
  intro count
  induction count with
  | zero => intro start faces verts lms h1 h2; omega
  | succ n ih =>
    intro start faces verts lms h1 h2
    unfold buildFaces
    by_cases heq : start = face_id
    · subst heq
      rw [hbad verts lms]
    · cases hcr : create_brush_render_face bsp start verts lms with
      | error e => rw [create_error_panic hcr]
      | ok out =>
        obtain ⟨f, verts2, lms2⟩ := out
        exact ih (start + 1) (faces ++ [f]) verts2 lms2 (by omega) (by omega)

/-- C8: for every emitted vertex, the lightmap texture coordinate computed by
`calculate_lightmap_texcoords` equals exactly the documented formula
`((dot(position, s_vector) + s_offset) - texture_mins.x) / extents.x` for the
`s` component, and the analogous expression for the `t` component, with no
correction applied. -/
theorem lightmap_texcoord_formula (position : Vec3) (face : BspFace)
    (texinfo : BspTexInfo) :
    calculate_lightmap_texcoords position face texinfo =
      specLightmapUV position face texinfo := by
  unfold calculate_lightmap_texcoords specLightmapUV
  rw [Vec3.dot_comm texinfo.s_vector position, Vec3.dot_comm texinfo.t_vector position]

/-- C9: the in-game focus machine over Game/Menu/Console follows the stated
transition table: `toggleconsole` sends Game to Console and Console to Game
and is a no-op from Menu; `togglemenu` sends Game to Menu and Menu to Game;
and from every state neither command transitions directly between Console and
Menu. -/
theorem focus_transition_table :
    (toggleconsole .game = .console ∧ toggleconsole .console = .game
      ∧ toggleconsole .menu = .menu)
    ∧ (togglemenu .game = .menu ∧ togglemenu .menu = .game)
    ∧ (∀ s : InGameFocus,
        ¬(s = .console ∧ toggleconsole s = .menu)
        ∧ ¬(s = .menu ∧ toggleconsole s = .console)
        ∧ ¬(s = .console ∧ togglemenu s = .menu)
        ∧ ¬(s = .menu ∧ togglemenu s = .console)) := by
  refine ⟨⟨rfl, rfl, rfl⟩, ⟨rfl, rfl⟩, ?_⟩
  intro s
  cases s <;> simp [toggleconsole, togglemenu]

theorem focus_transition_table_witness :
    ¬(InGameFocus.console = InGameFocus.console
      ∧ toggleconsole InGameFocus.console = InGameFocus.menu) :=
  (focus_transition_table.2.2 InGameFocus.console).1

/-- C2 counterexample: the claim states the blended factor is the average of
all active lanes for every arrangement of active and inactive lanes.  For the
arrangement `[-1, 1/2, -1, -1]` (one active lane, not in leading position)
the shader loop breaks at the first sentinel and yields `1.0`, while the
average of the active lanes is `1/2`. -/
theorem light_factor_nonprefix_counterexample :
    lightFactor ![-1, 1/2, -1, -1] = 1
    ∧ specLightFactorAll ![-1, 1/2, -1, -1] = 1/2
    ∧ (1 : ℚ) ≠ 1/2 := by
  refine ⟨?_, ?_, by norm_num⟩
  · norm_num [lightFactor, styleLoop, Matrix.cons_val_zero, Matrix.cons_val_one,
      Matrix.head_cons, Matrix.cons_val_two, Matrix.tail_cons, Matrix.cons_val_three]
  · norm_num [specLightFactorAll, List.filter, Matrix.cons_val_zero, Matrix.cons_val_one,
      Matrix.head_cons, Matrix.cons_val_two, Matrix.tail_cons, Matrix.cons_val_three]

/-- C2 (amended): the per-face light factor equals the average of the leading
run of active lanes (the lanes before the first `-1` sentinel), and `1.0`
when the first lane is already inactive; in particular the slots
`[0.4, 0.6, inactive, inactive]` blend to `0.5` and four inactive slots blend
to `1.0`. -/
theorem light_factor_leading_average :
    (∀ v : Fin 4 → ℚ, lightFactor v = specLightFactorLead v)
    ∧ lightFactor ![2/5, 3/5, -1, -1] = 1/2
    ∧ lightFactor ![-1, -1, -1, -1] = 1 := by
  refine ⟨?_, ?_, ?_⟩
  · intro v
    unfold lightFactor specLightFactorLead
    rw [styleLoop_eq_takeWhile]
  · norm_num [lightFactor, styleLoop, Matrix.cons_val_zero, Matrix.cons_val_one,
      Matrix.head_cons, Matrix.cons_val_two, Matrix.tail_cons, Matrix.cons_val_three]
  · norm_num [lightFactor, styleLoop, Matrix.cons_val_zero, Matrix.cons_val_one,
      Matrix.head_cons, Matrix.cons_val_two, Matrix.tail_cons, Matrix.cons_val_three]

/-- C6: the fragment color is the fullbright-mask blend of the
lightmap-modulated, light-factor-scaled base color with the raw base color:
mask `1.0` yields exactly the raw base color regardless of the lightmap
sample and the light-style values, and mask `0.0` yields
`base_color * lightmap_sample * light_factor` on the color channels. -/
theorem fragment_fullbright_blend (base : Vec4) (lm : ℚ) (v : Fin 4 → ℚ) :
    fragmentShader base lm v 1 = base
    ∧ (fragmentShader base lm v 0).r = base.r * lm * lightFactor v
    ∧ (fragmentShader base lm v 0).g = base.g * lm * lightFactor v
    ∧ (fragmentShader base lm v 0).b = base.b * lm * lightFactor v := by
  refine ⟨?_, ?_, ?_, ?_⟩
  · cases base
    simp only [fragmentShader, glslMix, Vec4.mk.injEq]
    refine ⟨by ring, by ring, by ring, by ring⟩
  · simp only [fragmentShader, glslMix]; ring
  · simp only [fragmentShader, glslMix]; ring
  · simp only [fragmentShader, glslMix]; ring

/-- C1 (amended): whenever `create_brush_render_face` completes, it has
appended exactly `3*(n-2)` vertices to the shared vertex buffer for a face
with `edge_count = n ≥ 3`, and `0` vertices for `n ∈ {1, 2}` (truncated
subtraction states both at once), and the face record's vertex count
(`slice.end` with `slice.start = 0`) equals `(edge_count - 2) * 3`; a face
with `0` edges never completes: it panics on the out-of-bounds index into its
empty edge slice (see the counterexample). -/
theorem triangulation_vertex_count (bsp : BspData) (face_id : Nat)
    (verts : List BrushVertex) (lms : List LightmapImage)
    (f : BrushRenderFace) (verts2 : List BrushVertex) (lms2 : List LightmapImage)
    (face : BspFace)
    (hface : bsp.faces.get? face_id = some face)
    (hok : create_brush_render_face bsp face_id verts lms = .ok (f, verts2, lms2)) :
    verts2.length = verts.length + 3 * (face.edge_count - 2)
    ∧ f.slice.stop = 3 * (face.edge_count - 2)
    ∧ f.slice.start = 0 := by
  unfold create_brush_render_face at hok
  cases hcore : create_brush_render_face_core bsp face_id verts lms with
  | none => rw [hcore] at hok; cases hok
  | some out =>
    rw [hcore] at hok
    cases hok
    obtain ⟨face', ti, tex, fei, bp, fan, lmout, h1, h2, h3, h4, h8, h9, h10⟩ :=
      create_core_inv hcore
    rw [hface] at h1
    cases h1
    injection h10 with hf h10'
    injection h10' with hv hl
    subst hf
    subst hv
    have hfan := fanLoop_length h8
    rw [extractRange_length h4] at hfan
    refine ⟨?_, ?_, rfl⟩
    · rw [List.length_append, hfan]
    · exact hfan

theorem triangulation_vertex_count_witness :
    create_brush_render_face bspQuad 0 [] [] =
      .ok (quadFaceOut, [quadVert, quadVert, quadVert, quadVert, quadVert, quadVert], [])
    ∧ [quadVert, quadVert, quadVert, quadVert, quadVert, quadVert].length =
        ([] : List BrushVertex).length + 3 * (quadFace.edge_count - 2)
    ∧ quadFaceOut.slice.stop = 3 * (quadFace.edge_count - 2) := by
  have hok : create_brush_render_face bspQuad 0 [] [] =
      .ok (quadFaceOut, [quadVert, quadVert, quadVert, quadVert, quadVert, quadVert], []) := by
    rfl
  have h := triangulation_vertex_count bspQuad 0 [] [] quadFaceOut
    [quadVert, quadVert, quadVert, quadVert, quadVert, quadVert] [] quadFace rfl hok
  exact ⟨hok, h.1, h.2.1⟩

/-- C1 counterexample: the claim states that every face with fewer than 3
edges appends 0 vertices; a face with 0 edges instead makes
`create_brush_render_face` panic (out-of-bounds index into its empty edge
slice), so nothing is appended and no face record is produced. -/
theorem triangulation_zero_edge_face_panics :
    zeroFace.edge_count < 3
    ∧ create_brush_render_face bspZero 0 [] [] = .error .panic :=
  ⟨by decide, rfl⟩

/-- C3 (amended): a face with fewer than 3 edges is not fatal: it is built
with an empty vertex range and unchanged vertex buffer, and at render time it
is not skipped — a draw call is still issued for it, but one whose vertex
range is empty (zero vertices drawn), and rendering it is not an error. -/
theorem degenerate_face_empty_draw (bsp : BspData) (face_id : Nat)
    (verts : List BrushVertex) (lms : List LightmapImage)
    (f : BrushRenderFace) (verts2 : List BrushVertex) (lms2 : List LightmapImage)
    (face : BspFace)
    (hface : bsp.faces.get? face_id = some face)
    (hn : face.edge_count < 3)
    (hok : create_brush_render_face bsp face_id verts lms = .ok (f, verts2, lms2)) :
    f.slice.start = 0 ∧ f.slice.stop = 0 ∧ verts2 = verts
    ∧ ∀ (r : BrushRenderer) (ff : Nat → Int → Nat) (time : Int) (camT : Mat4)
        (ee : Vec3 → Mat4) (origin angles : Vec3) (vals : List ℚ),
        ff f.tex_id time < r.texture_count →
        (∀ l, f.lightmap_id = some l → l < r.lightmap_views.length) →
        ∃ d, renderFace r ff time camT ee origin angles vals f = .ok d
          ∧ d.slice.stop = 0 ∧ d.slice.start = 0 := by
  unfold create_brush_render_face at hok
  cases hcore : create_brush_render_face_core bsp face_id verts lms with
  | none => rw [hcore] at hok; cases hok
  | some out =>
    rw [hcore] at hok
    cases hok
    obtain ⟨face', ti, tex, fei, bp, fan, lmout, h1, h2, h3, h4, h8, h9, h10⟩ :=
      create_core_inv hcore
    rw [hface] at h1
    cases h1
    injection h10 with hf h10'
    injection h10' with hv hl
    subst hf
    subst hv
    have hfan := fanLoop_length h8
    rw [extractRange_length h4] at hfan
    have hzero : fan.length = 0 := by omega
    have hnil : fan = [] := List.length_eq_zero.mp hzero
    subst hnil
    refine ⟨rfl, hzero, List.append_nil verts, ?_⟩
    intro r ff time camT ee origin angles vals hframe hlm
    exact ⟨_, renderFace_ok hframe hlm, hzero, rfl⟩

theorem degenerate_face_empty_draw_witness :
    degFace.edge_count < 3
    ∧ create_brush_render_face bspDeg 0 [] [] = .ok (degFaceOut, [], [])
    ∧ degFaceOut.slice.stop = 0
    ∧ renderFace degRenderer ff0 0 1 ee0 v0 v0 [] degFaceOut = .ok degDraw
    ∧ degDraw.slice.stop = 0 := by
  have hok : create_brush_render_face bspDeg 0 [] [] = .ok (degFaceOut, [], []) := by
    rfl
  have h := degenerate_face_empty_draw bspDeg 0 [] [] degFaceOut [] [] degFace
    rfl (by decide) hok
  obtain ⟨d, hd, hstop, -⟩ :=
    h.2.2.2 degRenderer ff0 0 1 ee0 v0 v0 [] (by decide) (fun l hl => by cases hl)
  have hd2 : renderFace degRenderer ff0 0 1 ee0 v0 v0 [] degFaceOut = .ok degDraw := rfl
  rw [hd2] at hd
  cases hd
  exact ⟨by decide, hok, h.2.1, hd2, hstop⟩

/-- C3 counterexample: the claim states zero draw calls are issued for a face
with fewer than 3 edges; building the renderer over exactly one degenerate
2-edge face and rendering it issues one draw call (whose vertex range is
empty), not zero. -/
theorem degenerate_face_draw_issued :
    degFace.edge_count < 3 ∧ drawCount degRenderResult = 1 :=
  ⟨by decide, rfl⟩

/-- C5: for every draw issued by a render pass, the per-draw vertex transform
equals the camera's view-projection transform composed with the model
transform, which is translation by the model origin (re-expressed in the
render API's coordinate system, as the vertex shader does for positions)
composed with the Euler rotation built from the model angles
(pitch/yaw/roll). -/
theorem draw_transform_composition (r : BrushRenderer) (ff : Nat → Int → Nat)
    (time : Int) (camT : Mat4) (ee : Vec3 → Mat4) (origin angles : Vec3)
    (vals : List ℚ) (ds : List DrawCmd)
    (hok : r.render ff time camT ee origin angles vals = .ok ds) :
    ∀ d ∈ ds, d.transform =
      camT * (fromTranslation { x := -origin.y, y := origin.z, z := -origin.x } *
        ee angles) := by
  intro d hd
  obtain ⟨f, hf, hfd⟩ := renderLoop_mem hok d hd
  rw [(renderFace_ok_inv hfd).2.2]

theorem draw_transform_composition_witness :
    styleRenderer.render ff0 0 1 ee0 v0 v0 [] = .ok [styleDraw]
    ∧ styleDraw.transform =
        1 * (fromTranslation { x := -v0.y, y := v0.z, z := -v0.x } * ee0 v0) := by
  have hok : styleRenderer.render ff0 0 1 ee0 v0 v0 [] = .ok [styleDraw] := rfl
  exact ⟨hok, draw_transform_composition styleRenderer ff0 0 1 ee0 v0 v0 [] [styleDraw]
    hok styleDraw (List.mem_singleton.mpr rfl)⟩

/-- C4 (amended): when a face's stored lightmap offset together with the
lightmap size overruns the packed sample buffer, `create_brush_render_face`
panics (the out-of-range slice `&lightmaps[ofs..ofs + size]` crashes), so
construction fails as a whole and `BrushRenderer::new` over a face range
containing that face produces no renderer — but the failure is a crash, not
a returned error result (see the counterexample). -/
theorem truncated_lightmap_panics (bsp : BspData)
    (model_face_id model_face_count face_id : Nat)
    (face : BspFace) (texinfo : BspTexInfo) (ofs : Nat)
    (hface : bsp.faces.get? face_id = some face)
    (hti : bsp.texinfo.get? face.texinfo_id = some texinfo)
    (hspecial : texinfo.special = false)
    (hofs : face.lightmap_id = some ofs)
    (hlen : bsp.lightmaps.length <
      ofs + (face.extents.1 / 16 + 1) * (face.extents.2 / 16 + 1)) :
    (∀ verts lms, create_brush_render_face bsp face_id verts lms = .error .panic)
    ∧ (model_face_id ≤ face_id → face_id < model_face_id + model_face_count →
        BrushRenderer.new bsp model_face_id model_face_count = .error .panic) := by
  have hex : extractRange bsp.lightmaps ofs
      ((face.extents.1 / 16 + 1) * (face.extents.2 / 16 + 1)) = none := by
    unfold extractRange
    rw [if_neg (by omega)]
  have hstep : ∀ lms, lightmapStep bsp face texinfo (face.extents.1 / 16 + 1)
      (face.extents.2 / 16 + 1)
      ((face.extents.1 / 16 + 1) * (face.extents.2 / 16 + 1)) lms = none := by
    intro lms
    unfold lightmapStep
    rw [if_pos hspecial]
    simp only [hofs, hex, Option.none_bind]
  have hcreate : ∀ verts lms,
      create_brush_render_face bsp face_id verts lms = .error .panic := by
    intro verts lms
    unfold create_brush_render_face
    cases hcore : create_brush_render_face_core bsp face_id verts lms with
    | none => rfl
    | some out =>
      exfalso
      obtain ⟨face', ti', tex, fei, bp, fan, lmout, h1, h2, h3, h4, h8, h9, h10⟩ :=
        create_core_inv hcore
      rw [hface] at h1
      cases h1
      rw [hti] at h2
      cases h2
      rw [hstep lms] at h9
      cases h9
  refine ⟨hcreate, fun hlo hhi => ?_⟩
  unfold BrushRenderer.new
  simp only [buildFaces_panics hcreate model_face_count model_face_id [] [] [] hlo hhi]

theorem truncated_lightmap_panics_witness :
    create_brush_render_face bspTrunc 0 [] [] = .error .panic
    ∧ BrushRenderer.new bspTrunc 0 1 = .error .panic := by
  have h := truncated_lightmap_panics bspTrunc 0 1 0 truncFace ti0 0 rfl rfl rfl rfl
    (by decide)
  exact ⟨h.1 [] [], h.2 (by decide) (by decide)⟩

/-- C4 counterexample: the claim states the failure is surfaced as a returned
error result, not a crash.  On a face whose 2-byte lightmap slice overruns
the 1-byte sample buffer, construction crashes with an out-of-range slice
panic; it does not return the error channel of the `Result` (the `?`-returned
`gpuError` variety). -/
theorem truncated_lightmap_not_returned_error :
    create_brush_render_face bspTrunc2 0 [] [] = .error .panic
    ∧ create_brush_render_face bspTrunc2 0 [] [] ≠ .error .gpuError := by
  have h : create_brush_render_face bspTrunc2 0 [] [] = .error .panic := rfl
  refine ⟨h, ?_⟩
  rw [h]
  intro hc
  injection hc with hc
  cases hc

/-- C7: whenever `create_brush_render_face` completes, a face whose texinfo is
special or which carries no lightmap sample offset gets no lightmap image
(`lightmap_id = none`, no image appended), and a lit, non-special face gets
exactly one appended lightmap image with dimensions
`floor(extents.x/16)+1` by `floor(extents.y/16)+1` (and matching byte count),
referenced by its `lightmap_id`. -/
theorem lightmap_image_dimensions (bsp : BspData) (face_id : Nat)
    (verts : List BrushVertex) (lms : List LightmapImage)
    (f : BrushRenderFace) (verts2 : List BrushVertex) (lms2 : List LightmapImage)
    (face : BspFace) (texinfo : BspTexInfo)
    (hface : bsp.faces.get? face_id = some face)
    (hti : bsp.texinfo.get? face.texinfo_id = some texinfo)
    (hok : create_brush_render_face bsp face_id verts lms = .ok (f, verts2, lms2)) :
    ((texinfo.special = true ∨ face.lightmap_id = none) →
      f.lightmap_id = none ∧ lms2 = lms)
    ∧ (∀ ofs, texinfo.special = false → face.lightmap_id = some ofs →
        f.lightmap_id = some lms.length
        ∧ ∃ data, data.length = (face.extents.1 / 16 + 1) * (face.extents.2 / 16 + 1)
            ∧ lms2 = lms ++ [{ width := face.extents.1 / 16 + 1,
                               height := face.extents.2 / 16 + 1,
                               data := data }]) := by
  unfold create_brush_render_face at hok
  cases hcore : create_brush_render_face_core bsp face_id verts lms with
  | none => rw [hcore] at hok; cases hok
  | some out =>
    rw [hcore] at hok
    cases hok
    obtain ⟨face', ti', tex, fei, bp, fan, lmout, h1, h2, h3, h4, h8, h9, h10⟩ :=
      create_core_inv hcore
    rw [hface] at h1
    cases h1
    rw [hti] at h2
    cases h2
    injection h10 with hf h10'
    injection h10' with hv hl
    subst hf
    subst hv
    subst hl
    constructor
    · intro hcase
      have hlm : lmout = (none, lms) := by
        rcases hcase with hsp | hno
        · unfold lightmapStep at h9
          rw [if_neg (by simp [hsp])] at h9
          injection h9 with h9
          exact h9.symm
        · unfold lightmapStep at h9
          split at h9
          · simp only [hno] at h9
            injection h9 with h9
            exact h9.symm
          · injection h9 with h9
            exact h9.symm
      rw [hlm]
      exact ⟨rfl, rfl⟩
    · intro ofs hsp hofs
      unfold lightmapStep at h9
      rw [if_pos hsp] at h9
      simp only [hofs, Option.bind_eq_some] at h9
      obtain ⟨data, hdata, hlm⟩ := h9
      injection hlm with hlm
      refine ⟨?_, data, extractRange_length hdata, ?_⟩
      · rw [← hlm]
      · rw [← hlm]

theorem lightmap_image_dimensions_witness :
    create_brush_render_face bspLit 0 [] [] =
      .ok (litFaceOut, [], [{ width := 3, height := 4, data := List.replicate 12 0 }])
    ∧ litFaceOut.lightmap_id = some 0
    ∧ 3 = litFace.extents.1 / 16 + 1 ∧ 4 = litFace.extents.2 / 16 + 1 := by
  have hok : create_brush_render_face bspLit 0 [] [] =
      .ok (litFaceOut, [], [{ width := 3, height := 4, data := List.replicate 12 0 }]) :=
    rfl
  have h := (lightmap_image_dimensions bspLit 0 [] [] litFaceOut []
    [{ width := 3, height := 4, data := List.replicate 12 0 }] litFace ti0 rfl rfl
    hok).2 0 rfl rfl
  exact ⟨hok, h.1, by decide, by decide⟩

/-- C10: for every render pass that completes, any light-style slot whose id
does not index into the supplied `lightstyle_values` slice (in particular any
id at least the slice length, such as the conventional 255) is silently
marked with the `-1` inactive sentinel in the corresponding draw's uniform;
and the pass's success never depends on the supplied values slice — with the
same renderer and bindings it completes for every values slice, so an
out-of-range style id never fails the render and never reads out of
bounds. -/
theorem style_out_of_range_sentinel (r : BrushRenderer) (ff : Nat → Int → Nat)
    (time : Int) (camT : Mat4) (ee : Vec3 → Mat4) (origin angles : Vec3)
    (vals : List ℚ) (ds : List DrawCmd)
    (hok : r.render ff time camT ee origin angles vals = .ok ds) :
    (∀ i (h1 : i < r.faces.length) (h2 : i < ds.length) (j : Fin 4),
        vals.length ≤ (r.faces.get ⟨i, h1⟩).light_styles j →
        (ds.get ⟨i, h2⟩).lightstyle_value j = -1)
    ∧ ∀ vals', ∃ ds', r.render ff time camT ee origin angles vals' = .ok ds' := by
  constructor
  · intro i h1 h2 j hoob
    have hget := (renderLoop_ok_get hok).2 i h1 h2
    rw [(renderFace_ok_inv hget).2.2]
    show computeLightstyleValue _ vals j = -1
    unfold computeLightstyleValue
    rw [List.get?_eq_none.mpr hoob]
  · intro vals'
    exact renderLoop_ok_indep hok vals'

theorem style_out_of_range_sentinel_witness :
    styleRenderer.render ff0 0 1 ee0 v0 v0 [] = .ok [styleDraw]
    ∧ styleDraw.lightstyle_value 0 = -1
    ∧ ([] : List ℚ).length ≤ styleFace.light_styles 0 := by
  have hok : styleRenderer.render ff0 0 1 ee0 v0 v0 [] = .ok [styleDraw] := rfl
  refine ⟨hok, ?_, by decide⟩
  exact (style_out_of_range_sentinel styleRenderer ff0 0 1 ee0 v0 v0 [] [styleDraw]
    hok).1 0 (by decide) (by decide) 0 (by decide)

end Richter
